import Mathlib

/-!
Verification of the virt-detect capability-probe and fingerprint engine.

The Rust sources (`machine_id.rs`, `lib.rs`, `windows_feature.rs`) are embedded
shallowly: pure helpers become Lean functions, the WMI worker thread becomes a
function from its request list to its response list, and the orchestrating
functions become functions of an environment record that fixes the outcome of
every external query.  Strings are Lean strings; `u32` values are `Nat`.
-/

namespace VirtDetect

/-! ## The embedded program -/

/-- `trim` on a character list: drop whitespace from both ends, as Rust
`str::trim` does (modelled on ASCII whitespace). -/
def trimChars (l : List Char) : List Char :=
  ((l.dropWhile Char.isWhitespace).reverse.dropWhile Char.isWhitespace).reverse

/-- Character-wise lower-casing, modelling `str::to_lowercase`. -/
def lowerChars (l : List Char) : List Char :=
  l.map Char.toLower

/-- The composite `val.trim().to_lowercase()` from `sanitize_string`. -/
def strTrimLower (s : String) : String :=
  String.mk (lowerChars (trimChars s.data))

/-- Is `pat` an initial segment of `l`? (helper for substring search). -/
def leadsWith : List Char → List Char → Bool
  | [], _ => true
  | _ :: _, [] => false
  | a :: as, b :: bs => a == b && leadsWith as bs

/-- Does `pat` occur as a contiguous subsequence of `l`?  Models Rust
`str::contains` with a literal pattern. -/
def containsSeq (pat : List Char) : List Char → Bool
  | [] => pat.isEmpty
  | b :: bs => leadsWith pat (b :: bs) || containsSeq pat bs

/-- `s.contains(pat)` on strings. -/
def strContains (s pat : String) : Bool :=
  containsSeq pat.data s.data

/-- Structural lexicographic comparison of character lists, matching the
`List`/`String` order used by `BTreeSet<String>` and `Vec::sort`. -/
def ltChars : List Char → List Char → Bool
  | [], [] => false
  | [], _ :: _ => true
  | _ :: _, [] => false
  | a :: as, b :: bs => if a < b then true else if b < a then false else ltChars as bs

/-- `a < b` on strings, as Rust `String: Ord` compares them. -/
def strLt (a b : String) : Bool :=
  ltChars a.data b.data

/-- `a <= b` on strings. -/
def strLe (a b : String) : Bool :=
  !(strLt b a)

/-- The filter closure inside `sanitize_string`: keep a trimmed, lower-cased
value when it is non-empty, contains none of the three textual placeholder
markers, and equals neither the zero serial nor the bare OEM marker. -/
def sanitizeKeep (val : String) : Bool :=
  !val.isEmpty
    && !strContains val "to be filled by o.e.m."
    && !strContains val "default string"
    && !strContains val "none"
    && val != "00000000"
    && val != "o.e.m."

/-- Embedding of `sanitize_string`: trim and lower-case the value, then apply
the placeholder filter. -/
def sanitize_string (s : Option String) : Option String :=
  (s.map strTrimLower).filter sanitizeKeep

/-- The sanitizer as the spec's words of C1 state it: the value is dropped
exactly when its trimmed, lower-cased form is empty or *equals* one of the five
placeholder strings; every other value is returned trimmed and lower-cased.
Used only to compare the claimed behaviour with `sanitize_string`. -/
def sanitizeSpecExact (s : Option String) : Option String :=
  match s with
  | none => none
  | some raw =>
    let v := strTrimLower raw
    if v = "" ∨ v = "to be filled by o.e.m." ∨ v = "default string" ∨ v = "none"
        ∨ v = "00000000" ∨ v = "o.e.m."
      then none
      else some v

/-- The amended sanitizer contract: the value is dropped when its trimmed,
lower-cased form is empty, *contains* one of the three textual placeholder
markers as a substring, or equals the zero serial or the bare OEM marker. -/
def sanitizeSpecAmended (s : Option String) : Option String :=
  match s with
  | none => none
  | some raw =>
    let v := strTrimLower raw
    if (v == "")
        || strContains v "to be filled by o.e.m."
        || strContains v "default string"
        || strContains v "none"
        || (v == "00000000")
        || (v == "o.e.m.")
      then none
      else some v

/-- Addition modulo `2 ^ 32`. -/
def add32 (a b : Nat) : Nat := (a + b) % 4294967296

/-- Rotate a 32-bit word right by `n` bits. -/
def rotr32 (x n : Nat) : Nat := ((x >>> n) ||| (x <<< (32 - n))) % 4294967296

/-- Bitwise complement of a 32-bit word. -/
def not32 (x : Nat) : Nat := x ^^^ 4294967295

def bsig0 (x : Nat) : Nat := rotr32 x 2 ^^^ rotr32 x 13 ^^^ rotr32 x 22

def bsig1 (x : Nat) : Nat := rotr32 x 6 ^^^ rotr32 x 11 ^^^ rotr32 x 25

def ssig0 (x : Nat) : Nat := rotr32 x 7 ^^^ rotr32 x 18 ^^^ (x >>> 3)

def ssig1 (x : Nat) : Nat := rotr32 x 17 ^^^ rotr32 x 19 ^^^ (x >>> 10)

def chFn (x y z : Nat) : Nat := (x &&& y) ^^^ (not32 x &&& z)

def majFn (x y z : Nat) : Nat := (x &&& y) ^^^ (x &&& z) ^^^ (y &&& z)

/-- The 64 SHA-256 round constants. -/
def sha256K : List Nat :=
  [1116352408, 1899447441, 3049323471, 3921009573,
   961987163, 1508970993, 2453635748, 2870763221,
   3624381080, 310598401, 607225278, 1426881987,
   1925078388, 2162078206, 2614888103, 3248222580,
   3835390401, 4022224774, 264347078, 604807628,
   770255983, 1249150122, 1555081692, 1996064986,
   2554220882, 2821834349, 2952996808, 3210313671,
   3336571891, 3584528711, 113926993, 338241895,
   666307205, 773529912, 1294757372, 1396182291,
   1695183700, 1986661051, 2177026350, 2456956037,
   2730485921, 2820302411, 3259730800, 3345764771,
   3516065817, 3600352804, 4094571909, 275423344,
   430227734, 506948616, 659060556, 883997877,
   958139571, 1322822218, 1537002063, 1747873779,
   1955562222, 2024104815, 2227730452, 2361852424,
   2428436474, 2756734187, 3204031479, 3329325298]

/-- The SHA-256 initial hash state. -/
def sha256H0 : List Nat :=
  [1779033703, 3144134277, 1013904242, 2773480762,
   1359893119, 2600822924, 528734635, 1541459225]

/-- `n` bytes of `v`, big-endian. -/
def beBytes : Nat → Nat → List Nat
  | 0, _ => []
  | n + 1, v => beBytes n (v / 256) ++ [v % 256]

/-- Group four consecutive bytes into one 32-bit big-endian word. -/
def bytesToWords : List Nat → List Nat
  | b0 :: b1 :: b2 :: b3 :: rest =>
    (b0 * 16777216 + b1 * 65536 + b2 * 256 + b3) :: bytesToWords rest
  | _ => []

/-- Split a byte list into 64-byte blocks, with a structural fuel argument so
that the kernel can evaluate it (the fuel is the list length, which always
suffices since every step consumes at least one element). -/
def chunk64Aux : Nat → List Nat → List (List Nat)
  | 0, _ => []
  | _ + 1, [] => []
  | fuel + 1, b :: bs => ((b :: bs).take 64) :: chunk64Aux fuel ((b :: bs).drop 64)

/-- Split a byte list into 64-byte blocks (the last may be shorter, but SHA-256
padding always makes the length a multiple of 64 before this is used). -/
def chunk64 (l : List Nat) : List (List Nat) :=
  chunk64Aux l.length l

/-- Extend the 16 message-schedule words of one block to 64. -/
def extendSchedule (ws : List Nat) : List Nat :=
  (List.range 48).foldl
    (fun w _ =>
      let n := w.length
      w ++ [add32 (add32 (ssig1 (w.getD (n - 2) 0)) (w.getD (n - 7) 0))
              (add32 (ssig0 (w.getD (n - 15) 0)) (w.getD (n - 16) 0))])
    ws

/-- One SHA-256 compression round on the eight-word state. -/
def sha256Round (st : List Nat) (kw : Nat × Nat) : List Nat :=
  match st with
  | [a, b, c, d, e, f, g, h] =>
    let t1 := add32 h (add32 (bsig1 e) (add32 (chFn e f g) (add32 kw.1 kw.2)))
    let t2 := add32 (bsig0 a) (majFn a b c)
    [add32 t1 t2, a, b, c, add32 d t1, e, f, g]
  | other => other

/-- Compress one 64-byte block into the running state. -/
def sha256Block (st : List Nat) (block : List Nat) : List Nat :=
  let ws := extendSchedule (bytesToWords block)
  let out := (sha256K.zip ws).foldl sha256Round st
  (st.zip out).map (fun p => add32 p.1 p.2)

/-- SHA-256 over a byte list, producing the 32 digest bytes. -/
def sha256 (msg : List Nat) : List Nat :=
  let padLen := (64 + 56 - ((msg.length + 1) % 64)) % 64
  let padded := msg ++ 128 :: List.replicate padLen 0 ++ beBytes 8 (msg.length * 8)
  let final := (chunk64 padded).foldl sha256Block sha256H0
  final.foldr (fun w acc => beBytes 4 w ++ acc) []

/-- One lowercase hexadecimal digit. -/
def hexDigit (n : Nat) : Char :=
  if n < 10 then Char.ofNat (48 + n) else Char.ofNat (87 + n)

/-- `to_hex` from `machine_id.rs`: each byte as two lowercase hex digits. -/
def to_hex (bytes : List Nat) : String :=
  String.mk (bytes.foldr (fun b acc => hexDigit (b / 16 % 16) :: hexDigit (b % 16) :: acc) [])

/-- UTF-8 encoding of one scalar value, as `hasher.update` sees the Rust
string's bytes. -/
def charUtf8 (c : Char) : List Nat :=
  let n := c.toNat
  if n < 128 then [n]
  else if n < 2048 then [192 + n / 64, 128 + n % 64]
  else if n < 65536 then [224 + n / 4096, 128 + n / 64 % 64, 128 + n % 64]
  else [240 + n / 262144, 128 + n / 4096 % 64, 128 + n / 64 % 64, 128 + n % 64]

/-- The UTF-8 bytes of a string. -/
def utf8Bytes (s : String) : List Nat :=
  s.data.foldr (fun c acc => charUtf8 c ++ acc) []

structure BaseBoard where
  manufacturer : Option String
  product : Option String
  serial_number : Option String
deriving DecidableEq

structure Processor where
  name : Option String
  processor_id : Option String
deriving DecidableEq

structure DiskDrive where
  serial_number : Option String
  model : Option String
  index : Nat
deriving DecidableEq

structure DiskPartition where
  disk_index : Nat
deriving DecidableEq

structure VideoController where
  name : Option String
  adapter_compatibility : Option String
  pnp_device_id : Option String
deriving DecidableEq

inductive WMIQueryRequest where
  | GetBaseboard
  | GetProcessor
  | GetDisksDerives
  | GetDiskPartitions
  | GetVideoControllers
  | Shutdown
deriving DecidableEq

inductive MachineIdError where
  | WMIInitialization (s : String)
  | ChannelSend (s : String)
  | ChannelRecv (s : String)
  | QueryError (s : String)
  | WorkerThreadPanicked (s : String)
  | NoFactorsFound
deriving DecidableEq

inductive WMIQueryResult where
  | Baseboard (b : Option BaseBoard)
  | Processor (p : Option Processor)
  | DiskDrives (d : List DiskDrive)
  | DiskPartitions (p : List DiskPartition)
  | VideoControllers (v : List VideoController)
  | Error (e : MachineIdError)
deriving DecidableEq

instance exceptDecEq {ε α : Type} [DecidableEq ε] [DecidableEq α] :
    DecidableEq (Except ε α) := fun x y =>
  match x, y with
  | .ok a, .ok b =>
    if h : a = b then isTrue (by rw [h])
    else isFalse (by intro hh; cases hh; exact h rfl)
  | .error a, .error b =>
    if h : a = b then isTrue (by rw [h])
    else isFalse (by intro hh; cases hh; exact h rfl)
  | .ok _, .error _ => isFalse (by intro hh; cases hh)
  | .error _, .ok _ => isFalse (by intro hh; cases hh)

/-- The environment fixing the outcome of every external effect in one run of
the fingerprint computation: the worker's one-time backend initialization, the
result of each backend query (`error` carries the backend's error text), and
whether the worker thread terminates by panicking. -/
structure WmiEnv where
  init : Except String Unit
  baseboard : Except String (List BaseBoard)
  processor : Except String (List Processor)
  diskDrives : Except String (List DiskDrive)
  diskPartitions : Except String (List DiskPartition)
  videoControllers : Except String (List VideoController)
  workerPanic : Option String
deriving DecidableEq

/-- The response the worker computes for one data-bearing request on a live
connection, mirroring the per-request `match` in `wmi_worker_thread` (the
`Shutdown` arm is never consulted: the loop breaks before responding). -/
def handleQuery (env : WmiEnv) : WMIQueryRequest → WMIQueryResult
  | .GetBaseboard =>
    match env.baseboard with
    | .ok results => .Baseboard results.head?
    | .error e => .Error (.QueryError ("Baseboard query failed: " ++ e))
  | .GetProcessor =>
    match env.processor with
    | .ok results => .Processor results.head?
    | .error e => .Error (.QueryError ("Processor query failed: " ++ e))
  | .GetDisksDerives =>
    match env.diskDrives with
    | .ok results => .DiskDrives results
    | .error e => .Error (.QueryError ("DiskDrives query failed: " ++ e))
  | .GetDiskPartitions =>
    match env.diskPartitions with
    | .ok results => .DiskPartitions results
    | .error e => .Error (.QueryError ("DiskPartitions query failed: " ++ e))
  | .GetVideoControllers =>
    match env.videoControllers with
    | .ok results => .VideoControllers results
    | .error e => .Error (.QueryError ("VideoControllers query failed: " ++ e))
  | .Shutdown => .Error (.QueryError "no response is produced for Shutdown")

/-- The worker's request loop after successful initialization: answer each
request in order, terminating silently at the first `Shutdown` (or when the
request channel closes, i.e. the list ends). -/
def workerLoop (env : WmiEnv) : List WMIQueryRequest → List WMIQueryResult
  | [] => []
  | .Shutdown :: _ => []
  | req :: rest => handleQuery env req :: workerLoop env rest

/-- Embedding of `wmi_worker_thread` as a function from the request sequence to
the sequence of responses the worker sends: initialization is attempted once;
on failure a single `WMIInitialization` error response is emitted and the
worker terminates with no retry. -/
def wmi_worker_thread (env : WmiEnv) (reqs : List WMIQueryRequest) : List WMIQueryResult :=
  match env.init with
  | .error e => [.Error (.WMIInitialization ("WMI worker failed to initialize: " ++ e))]
  | .ok _ => workerLoop env reqs

/-- What the orchestrator's lock-step `recv` yields for a given request: the
init-failure error response if the worker never came up, otherwise the
worker's answer to that request. -/
def recvResult (env : WmiEnv) (req : WMIQueryRequest) : WMIQueryResult :=
  match env.init with
  | .error e => .Error (.WMIInitialization ("WMI worker failed to initialize: " ++ e))
  | .ok _ => handleQuery env req

/-- `BTreeSet<String>::insert` on the model of the set: a strictly sorted
list. -/
def setInsert (a : String) : List String → List String
  | [] => [a]
  | b :: t => if strLt a b then a :: b :: t else if a = b then b :: t else b :: setInsert a t

/-- The baseboard handler closure: tag and insert the sanitized manufacturer,
product and serial number. -/
def handleBaseboard : WMIQueryResult → List String → List String
  | .Baseboard (some bios), factors =>
    let f1 := match sanitize_string bios.manufacturer with
      | some val => setInsert ("bios_manufacturer:" ++ val) factors
      | none => factors
    let f2 := match sanitize_string bios.product with
      | some val => setInsert ("bios_model:" ++ val) f1
      | none => f1
    match sanitize_string bios.serial_number with
      | some val => setInsert ("bios_serial:" ++ val) f2
      | none => f2
  | _, factors => factors

/-- The processor handler closure: tag and insert the sanitized name and
processor id. -/
def handleProcessor : WMIQueryResult → List String → List String
  | .Processor (some cpu), factors =>
    let f1 := match sanitize_string cpu.name with
      | some val => setInsert ("cpu_name:" ++ val) factors
      | none => factors
    match sanitize_string cpu.processor_id with
      | some val => setInsert ("cpu_id:" ++ val) f1
      | none => f1
  | _, factors => factors

/-- The partitions handler closure: the system disk index is the disk index of
the first boot partition returned, if any. -/
def partitionsIndex : WMIQueryResult → Option Nat
  | .DiskPartitions partitions => partitions.head?.map (fun it => it.disk_index)
  | _ => none

/-- The disk-drive handler closure: find the drive whose index matches the
system disk index and insert its sanitized model and serial number. -/
def handleDiskDrives (disk_index : Nat) : WMIQueryResult → List String → List String
  | .DiskDrives disks, factors =>
    match disks.find? (fun disk => disk.index == disk_index) with
    | some disk =>
      let f1 := match sanitize_string disk.model with
        | some val => setInsert ("disk_model:" ++ val) factors
        | none => factors
      match sanitize_string disk.serial_number with
        | some val => setInsert ("disk_serial:" ++ val) f1
        | none => f1
    | none => factors
  | _, factors => factors

/-- `vc.pnp_device_id` indicates a PCI-bus device. -/
def isPciDevice (vc : VideoController) : Bool :=
  (vc.pnp_device_id.map (fun it => leadsWith "PCI\\VEN_".data it.data)).getD false

/-- Stable insertion into an ascending list, modelling `Vec::sort` through
`sortStrings`. -/
def insertLe (a : String) : List String → List String
  | [] => [a]
  | b :: t => if strLe a b then a :: b :: t else b :: insertLe a t

/-- Ascending sort of the per-GPU factor components. -/
def sortStrings (l : List String) : List String :=
  l.foldr insertLe []

/-- The factor one enumerated video controller contributes: nothing unless its
device id starts with the PCI prefix; otherwise the present sanitized fields,
tagged with the adapter index, sorted and joined with a semicolon. -/
def gpuEntry (i : Nat) (vc : VideoController) : Option String :=
  if isPciDevice vc then
    let g1 : List String := match sanitize_string vc.adapter_compatibility with
      | some val => ["gpu" ++ toString i ++ "_manufacturer:" ++ val]
      | none => []
    let g2 := g1 ++ (match sanitize_string vc.name with
      | some val => ["gpu" ++ toString i ++ "_model:" ++ val]
      | none => [])
    let g3 := g2 ++ (match sanitize_string vc.pnp_device_id with
      | some val => ["gpu" ++ toString i ++ "_pnp_id:" ++ val]
      | none => [])
    if g3.isEmpty then none
    else some (String.intercalate ";" (sortStrings g3))
  else none

/-- The video-controller handler closure: fold every enumerated adapter's
contribution into the factor set. -/
def handleVideoControllers : WMIQueryResult → List String → List String
  | .VideoControllers gpus, factors =>
    gpus.enum.foldl
      (fun fs p =>
        match gpuEntry p.1 p.2 with
        | some f => setInsert f fs
        | none => fs)
      factors
  | _, factors => factors

/-- The observable outcome of one run of `get_machine_id_with_factors`: the
returned value, the requests sent to the worker in order, the factor set held
at the point of return, and whether the worker handle was joined. -/
structure RunResult where
  result : Except MachineIdError (String × List String)
  requests : List WMIQueryRequest
  factors : List String
  joined : Bool
deriving DecidableEq

/-- The tail of the fingerprint computation shared by both disk branches: the
video-controller query, then `Shutdown`, join, the empty-set check and the
digest. -/
def finishRun (env : WmiEnv) (factors : List String)
    (reqsSoFar : List WMIQueryRequest) : RunResult :=
  match recvResult env .GetVideoControllers with
  | .Error e => ⟨.error e, reqsSoFar ++ [.GetVideoControllers], factors, false⟩
  | r =>
    let factors := handleVideoControllers r factors
    let reqs := reqsSoFar ++ [.GetVideoControllers, .Shutdown]
    match env.workerPanic with
    | some msg => ⟨.error (.WorkerThreadPanicked msg), reqs, factors, true⟩
    | none =>
      if factors.isEmpty then ⟨.error .NoFactorsFound, reqs, factors, true⟩
      else
        let combined_string := String.intercalate "|" factors
        ⟨.ok (to_hex (sha256 (utf8Bytes combined_string)), factors), reqs, factors, true⟩

/-- Embedding of `get_machine_id_with_factors`: the lock-step query sequence
with its early error returns, the conditional system-disk query, and the final
shutdown, join and digest. -/
def get_machine_id_with_factors (env : WmiEnv) : RunResult :=
  match recvResult env .GetBaseboard with
  | .Error e => ⟨.error e, [.GetBaseboard], [], false⟩
  | r1 =>
    let factors := handleBaseboard r1 []
    match recvResult env .GetProcessor with
    | .Error e => ⟨.error e, [.GetBaseboard, .GetProcessor], factors, false⟩
    | r2 =>
      let factors := handleProcessor r2 factors
      match recvResult env .GetDiskPartitions with
      | .Error e =>
        ⟨.error e, [.GetBaseboard, .GetProcessor, .GetDiskPartitions], factors, false⟩
      | r3 =>
        match partitionsIndex r3 with
        | some disk_index =>
          match recvResult env .GetDisksDerives with
          | .Error e =>
            ⟨.error e,
              [.GetBaseboard, .GetProcessor, .GetDiskPartitions, .GetDisksDerives],
              factors, false⟩
          | r4 =>
            finishRun env (handleDiskDrives disk_index r4 factors)
              [.GetBaseboard, .GetProcessor, .GetDiskPartitions, .GetDisksDerives]
        | none =>
          finishRun env factors [.GetBaseboard, .GetProcessor, .GetDiskPartitions]

/-- Is a request the shutdown signal? -/
def isShutdown : WMIQueryRequest → Bool
  | .Shutdown => true
  | _ => false

/-- An environment whose baseboard query fails while everything else is
healthy. -/
def envBaseboardFail : WmiEnv :=
  ⟨.ok (), .error "boom", .ok [], .ok [], .ok [], .ok [], none⟩

/-- A fully healthy sample environment. -/
def envSample : WmiEnv :=
  ⟨.ok (), .ok [⟨some "ASUS", some "PRIME", some "12345"⟩],
   .ok [⟨some "Intel(R) Core", some "BFEBFBFF"⟩],
   .ok [⟨some "S1", some "M1", 1⟩, ⟨some "S2", some "M2", 2⟩],
   .ok [⟨1⟩],
   .ok [⟨some "RTX", some "NVIDIA", some "PCI\\VEN_10DE"⟩],
   none⟩

/-- The factor set `envSample` produces. -/
def factorsSample : List String :=
  ["bios_manufacturer:asus", "bios_model:prime", "bios_serial:12345",
   "cpu_id:bfebfbff", "cpu_name:intel(r) core", "disk_model:m1", "disk_serial:s1",
   "gpu0_manufacturer:nvidia;gpu0_model:rtx;gpu0_pnp_id:pci\\ven_10de"]

/-- Two attached fixed drives, the boot partition on disk index 1. -/
def envTwoDisks : WmiEnv :=
  ⟨.ok (), .ok [], .ok [],
   .ok [⟨none, none, 1⟩, ⟨some "S2", some "M2", 2⟩],
   .ok [⟨1⟩], .ok [], none⟩

structure FeatureStatus where
  enabled : Bool
  details : List String
deriving DecidableEq

structure OptionalFeature where
  name : String
  install_state : Nat
deriving DecidableEq

/-- One step of the accumulation loop in `check_wsl_via_wmi`. -/
def wslFeatureStep (acc : Bool × Bool) (feature : OptionalFeature) : Bool × Bool :=
  if feature.install_state == 1 then
    if feature.name == "Microsoft-Windows-Subsystem-Linux" then (true, acc.2)
    else if feature.name == "VirtualMachinePlatform" then (acc.1, true)
    else acc
  else acc

/-- Embedding of `check_wsl_via_wmi` applied to the backend's feature rows:
the pair (WSL feature enabled, VirtualMachinePlatform enabled). -/
def check_wsl_via_wmi (results : List OptionalFeature) : Bool × Bool :=
  results.foldl wslFeatureStep (false, false)

/-- Embedding of `check_hyperv_via_wmi` applied to the backend's feature rows:
the first row's install state must be 1. -/
def check_hyperv_via_wmi (results : List OptionalFeature) : Bool :=
  match results.head? with
  | some feature => feature.install_state == 1
  | none => false

/-- Environment of one `is_hyperv_enabled` probe: the service query outcome and
the backend rows (or error) for the optional-feature query. -/
structure HypervEnv where
  service : Except String Bool
  wmi : Except String (List OptionalFeature)
deriving DecidableEq

/-- Environment of one `is_wsl_enabled` probe. -/
structure WslEnv where
  wslExeExists : Bool
  service : Except String Bool
  reg : Bool
  wmi : Except String (List OptionalFeature)
deriving DecidableEq

/-- The WMI stage of the Hyper-V probe, with the diagnostics accumulated so
far. -/
def hypervWmiStep (env : HypervEnv) (details : List String) : FeatureStatus :=
  match env.wmi with
  | .ok feats =>
    let enabled := check_hyperv_via_wmi feats
    let details := details
      ++ ["WMI 检查: Hyper-V 可选功能状态为 " ++ (if enabled then "已启用" else "未启用") ++ "。"]
    if enabled then ⟨true, details⟩
    else ⟨false, details ++ ["所有检测方法均未能确认 Hyper-V 已完全启用。"]⟩
  | .error err =>
    ⟨false, details ++ ["WMI 查询失败: " ++ err ++ "。",
      "所有检测方法均未能确认 Hyper-V 已完全启用。"]⟩

/-- Embedding of `is_hyperv_enabled`: the service check, then the WMI
optional-feature check, each recording one diagnostic line, stopping at the
first affirmative. -/
def is_hyperv_enabled (env : HypervEnv) : FeatureStatus :=
  match env.service with
  | .ok running =>
    let details := ["服务 vmms: 状态为 "
      ++ (if running then "正在运行" else "已停止") ++ "。"]
    if running then ⟨true, details⟩
    else hypervWmiStep env details
  | .error err =>
    hypervWmiStep env ["服务 vmms 查询失败: " ++ err ++ "。"]

/-- The WMI stage of the WSL probe: two diagnostic lines on a successful query,
one on a failed one. -/
def wslWmiStep (env : WslEnv) (details : List String) : FeatureStatus :=
  match env.wmi with
  | .ok feats =>
    let r := check_wsl_via_wmi feats
    let details := details
      ++ ["WMI: Microsoft-Windows-Subsystem-Linux 状态为 "
            ++ (if r.1 then "已启用" else "未启用") ++ "."]
      ++ ["WMI: VirtualMachinePlatform 状态为 "
            ++ (if r.2 then "已启用" else "未启用") ++ "."]
    if r.1 && r.2 then ⟨true, details⟩
    else ⟨false, details ++ ["所有检测方法均未能确认 WSL 已完全启用。"]⟩
  | .error e =>
    ⟨false, details ++ ["WMI 查询可选功能失败: " ++ e ++ "。",
      "所有检测方法均未能确认 WSL 已完全启用。"]⟩

/-- The registry stage of the WSL probe. -/
def wslRegStep (env : WslEnv) (details : List String) : FeatureStatus :=
  if env.reg then ⟨true, details ++ ["注册表检查: WSL 已启用。"]⟩
  else wslWmiStep env (details ++ ["注册表检查: WSL 未启用。"])

/-- Embedding of `is_wsl_enabled`: the wsl.exe existence gate, then the
service, registry and WMI methods in order, stopping at the first
affirmative. -/
def is_wsl_enabled (env : WslEnv) : FeatureStatus :=
  if !env.wslExeExists then ⟨false, ["文件检查: 未找到 wsl.exe，WSL 未安装。"]⟩
  else
    let details := ["文件检查: 找到 wsl.exe。"]
    match env.service with
    | .ok running =>
      let details := details ++ ["服务 LxssManager: 状态为 "
        ++ (if running then "正在运行" else "已停止") ++ "。"]
      if running then ⟨true, details⟩
      else wslRegStep env details
    | .error err =>
      wslRegStep env (details ++ ["服务 LxssManager 查询失败: " ++ err ++ "。"])

/-- Does the Hyper-V probe's WMI method confirm enablement? -/
def wmiConfirmsHyperv (x : Except String (List OptionalFeature)) : Bool :=
  match x with
  | .ok feats => check_hyperv_via_wmi feats
  | .error _ => false

/-- Does the WSL probe's WMI method confirm enablement? -/
def wmiConfirmsWsl (x : Except String (List OptionalFeature)) : Bool :=
  match x with
  | .ok feats => (check_wsl_via_wmi feats).1 && (check_wsl_via_wmi feats).2
  | .error _ => false

/-- Feature rows in which both optional features are enabled. -/
def featsBoth : List OptionalFeature :=
  [⟨"Microsoft-Windows-Subsystem-Linux", 1⟩, ⟨"VirtualMachinePlatform", 1⟩]

/-- An environment whose processor query fails while everything else is
healthy. -/
def envProcessorFail : WmiEnv :=
  ⟨.ok (), .ok [], .error "cpu boom", .ok [], .ok [], .ok [], none⟩

/-! ## The verification -/

theorem toNat_ofNat_valid (m : Nat) (h : m < 55296) : (Char.ofNat m).toNat = m := by
  have hv : m.isValidChar := Or.inl h
  rw [Char.ofNat, dif_pos hv]
  rfl

theorem char_eq_iff_toNat_eq (c d : Char) : c = d ↔ c.toNat = d.toNat := by
  constructor
  · intro h
    rw [h]
  · intro h
    have h2 := congrArg Char.ofNat h
    rwa [Char.ofNat_toNat, Char.ofNat_toNat] at h2

theorem isWhitespace_iff (c : Char) :
    c.isWhitespace = true ↔ (c.toNat = 32 ∨ c.toNat = 9 ∨ c.toNat = 13 ∨ c.toNat = 10) := by
  simp only [Char.isWhitespace, Bool.or_eq_true, decide_eq_true_eq]
  rw [char_eq_iff_toNat_eq c ' ', char_eq_iff_toNat_eq c '\t',
    char_eq_iff_toNat_eq c '\r', char_eq_iff_toNat_eq c '\n']
  have h32 : (' ' : Char).toNat = 32 := rfl
  have h9 : ('\t' : Char).toNat = 9 := rfl
  have h13 : ('\r' : Char).toNat = 13 := rfl
  have h10 : ('\n' : Char).toNat = 10 := rfl
  rw [h32, h9, h13, h10]
  omega

theorem toLower_toNat (c : Char) :
    c.toLower.toNat = if c.toNat ≥ 65 ∧ c.toNat ≤ 90 then c.toNat + 32 else c.toNat := by
  simp only [Char.toLower]
  by_cases h : c.toNat ≥ 65 ∧ c.toNat ≤ 90
  · rw [if_pos h, if_pos h]
    exact toNat_ofNat_valid _ (by omega)
  · rw [if_neg h, if_neg h]

theorem toLower_toLower (c : Char) : c.toLower.toLower = c.toLower := by
  apply (char_eq_iff_toNat_eq _ _).mpr
  rw [toLower_toNat, toLower_toNat]
  split_ifs <;> omega

theorem isWhitespace_toLower (c : Char) : c.toLower.isWhitespace = c.isWhitespace := by
  by_cases h : c.toNat ≥ 65 ∧ c.toNat ≤ 90
  · have h1 : c.toLower.toNat = c.toNat + 32 := by rw [toLower_toNat, if_pos h]
    have h2 : c.toLower.isWhitespace = false := by
      rw [Bool.eq_false_iff]
      intro hw
      have := (isWhitespace_iff _).mp hw
      omega
    have h3 : c.isWhitespace = false := by
      rw [Bool.eq_false_iff]
      intro hw
      have := (isWhitespace_iff _).mp hw
      omega
    rw [h2, h3]
  · have h1 : c.toLower = c := by
      apply (char_eq_iff_toNat_eq _ _).mpr
      rw [toLower_toNat, if_neg h]
    rw [h1]

theorem dropWhile_head_false {p : Char → Bool} {l : List Char} {x : Char}
    (hx : (l.dropWhile p).head? = some x) : p x = false := by
  have h := List.head?_dropWhile_not p l
  rw [hx] at h
  exact h

theorem dropWhile_eq_self_of {p : Char → Bool} {l : List Char}
    (h : ∀ x, l.head? = some x → p x = false) : l.dropWhile p = l := by
  cases l with
  | nil => rfl
  | cons a t =>
    rw [List.dropWhile_cons_of_neg]
    rw [h a rfl]
    simp

theorem dropWhile_idem (p : Char → Bool) (l : List Char) :
    (l.dropWhile p).dropWhile p = l.dropWhile p :=
  dropWhile_eq_self_of (fun _ hx => dropWhile_head_false hx)

theorem getLast?_dropWhile (p : Char → Bool) (l : List Char)
    (h : l.dropWhile p ≠ []) : (l.dropWhile p).getLast? = l.getLast? := by
  induction l with
  | nil => simp at h
  | cons a t ih =>
    by_cases hp : p a = true
    · rw [List.dropWhile_cons_of_pos hp] at h ⊢
      have ht : t ≠ [] := by
        intro he
        rw [he] at h
        simp at h
      cases t with
      | nil => exact absurd rfl ht
      | cons b u => rw [ih h, List.getLast?_cons_cons]
    · rw [List.dropWhile_cons_of_neg hp]

theorem head?_trimChars_false {l : List Char} {x : Char}
    (hx : (trimChars l).head? = some x) : x.isWhitespace = false := by
  unfold trimChars at hx
  rw [List.head?_reverse] at hx
  have hne : (l.dropWhile Char.isWhitespace).reverse.dropWhile Char.isWhitespace ≠ [] := by
    intro he
    rw [he] at hx
    simp at hx
  rw [getLast?_dropWhile _ _ hne, List.getLast?_reverse] at hx
  exact dropWhile_head_false hx

theorem trimChars_trimChars (l : List Char) : trimChars (trimChars l) = trimChars l := by
  conv_lhs => rw [trimChars]
  rw [dropWhile_eq_self_of (fun _ hx => head?_trimChars_false hx)]
  rw [trimChars, List.reverse_reverse, dropWhile_idem]

theorem trimChars_lowerChars (l : List Char) :
    trimChars (lowerChars l) = lowerChars (trimChars l) := by
  have hws : (Char.isWhitespace ∘ Char.toLower) = Char.isWhitespace := by
    funext c
    exact isWhitespace_toLower c
  unfold trimChars lowerChars
  rw [List.dropWhile_map, hws, ← List.map_reverse, List.dropWhile_map, hws, ← List.map_reverse]

theorem lowerChars_lowerChars (l : List Char) : lowerChars (lowerChars l) = lowerChars l := by
  unfold lowerChars
  rw [List.map_map]
  apply List.map_congr_left
  intro c _
  exact toLower_toLower c

theorem strTrimLower_strTrimLower (s : String) :
    strTrimLower (strTrimLower s) = strTrimLower s := by
  unfold strTrimLower
  rw [show (String.mk (lowerChars (trimChars s.data))).data = lowerChars (trimChars s.data) from rfl]
  rw [trimChars_lowerChars, trimChars_trimChars, lowerChars_lowerChars]

/-- The filter inside `sanitize_string` keeps exactly the values the amended
blacklist condition rejects nothing of. -/
theorem sanitizeKeep_eq (v : String) :
    sanitizeKeep v = !((v == "") || strContains v "to be filled by o.e.m."
      || strContains v "default string" || strContains v "none"
      || (v == "00000000") || (v == "o.e.m.")) := by
  rw [sanitizeKeep]
  have he : v.isEmpty = (v == "") := by
    by_cases hv : v = ""
    · rw [hv]
      rfl
    · have h1 : v.isEmpty = false := by
        rw [Bool.eq_false_iff]
        intro hh
        exact hv ((String.isEmpty_iff v).mp hh)
      have h2 : (v == "") = false := by
        rw [beq_eq_false_iff_ne]
        exact hv
      rw [h1, h2]
  rw [he]
  simp only [Bool.not_or, bne]

/-- C1 (counterexample): the input `"nonempty"` is not equal, after trimming
and lower-casing, to any of the five placeholder strings, so the claim
predicts the output `some "nonempty"`; the code instead drops it, because the
filter is a *substring* test and `"nonempty"` contains `"none"`. -/
theorem C1_counterexample :
    sanitize_string (some "nonempty") = none ∧
    sanitizeSpecExact (some "nonempty") = some "nonempty" := by
  constructor
  · decide
  · decide

/-- C1 (amended): the sanitizer maps absent to absent; a present value is
trimmed and lower-cased, then dropped exactly when the result is empty,
contains one of `"to be filled by o.e.m."`, `"default string"`, `"none"` as a
substring, or equals `"00000000"` or `"o.e.m."`; otherwise the trimmed,
lower-cased value is returned. -/
theorem C1_sanitize_amended (x : Option String) :
    sanitize_string x = sanitizeSpecAmended x := by
  cases x with
  | none => rfl
  | some raw =>
    have hred : sanitize_string (some raw) =
        if sanitizeKeep (strTrimLower raw) then some (strTrimLower raw) else none := rfl
    have hspec : sanitizeSpecAmended (some raw) =
        if ((strTrimLower raw == "") || strContains (strTrimLower raw) "to be filled by o.e.m."
          || strContains (strTrimLower raw) "default string"
          || strContains (strTrimLower raw) "none"
          || (strTrimLower raw == "00000000") || (strTrimLower raw == "o.e.m."))
          then none else some (strTrimLower raw) := rfl
    rw [hred, hspec, sanitizeKeep_eq]
    cases ((strTrimLower raw == "") || strContains (strTrimLower raw) "to be filled by o.e.m."
        || strContains (strTrimLower raw) "default string"
        || strContains (strTrimLower raw) "none"
        || (strTrimLower raw == "00000000") || (strTrimLower raw == "o.e.m.")) with
    | true => rfl
    | false => rfl

/-- C10: the sanitizer is idempotent — applying it to its own output changes
nothing, because every present output is already trimmed, lower-cased, and
passes the placeholder filter. -/
theorem C10_sanitize_idempotent (x : Option String) :
    sanitize_string (sanitize_string x) = sanitize_string x := by
  have hred : ∀ v : String, sanitize_string (some v) =
      if sanitizeKeep (strTrimLower v) then some (strTrimLower v) else none := by
    intro v
    rfl
  cases x with
  | none => rfl
  | some raw =>
    rw [hred raw]
    by_cases h : sanitizeKeep (strTrimLower raw) = true
    · rw [if_pos h, hred, strTrimLower_strTrimLower, if_pos h]
    · rw [if_neg h]
      rfl

/-- Sanity check of the digest pipeline against the FIPS 180-2 test vector. -/
example :
    to_hex (sha256 (utf8Bytes "abc")) =
      "ba7816bf8f01cfea414140de5dae2223b00361a396177a9cb410ff61f20015ad" := by
  decide

/-- C8: the worker attempts initialization exactly once — on failure it emits a
single `WMIInitialization` error response and terminates without retrying;
otherwise it answers exactly the requests preceding the first `Shutdown`, one
response each, in request order, and sends nothing for the `Shutdown` itself or
afterwards. -/
theorem C8_worker_protocol (env : WmiEnv) (reqs : List WMIQueryRequest) :
    wmi_worker_thread env reqs =
      match env.init with
      | .error e =>
        [.Error (.WMIInitialization ("WMI worker failed to initialize: " ++ e))]
      | .ok _ =>
        (reqs.takeWhile (fun r => !isShutdown r)).map (handleQuery env) := by
  rw [wmi_worker_thread]
  cases env.init with
  | error e => rfl
  | ok u =>
    induction reqs with
    | nil => rfl
    | cons r rest ih =>
      cases r <;> simp [workerLoop, isShutdown, List.takeWhile_cons] <;> exact ih

/-- Every error response the orchestrator can receive over the channel is an
initialization error or a query error. -/
theorem recvResult_error_shape (env : WmiEnv) (req : WMIQueryRequest)
    (e : MachineIdError) (h : recvResult env req = .Error e) :
    (∃ s, e = .WMIInitialization s) ∨ ∃ s, e = .QueryError s := by
  cases hi : env.init with
  | error s =>
    simp only [recvResult, hi] at h
    left
    injection h with h2
    exact ⟨_, h2.symm⟩
  | ok u =>
    cases req with
    | GetBaseboard =>
      cases hb : env.baseboard with
      | ok r => simp [recvResult, handleQuery, hi, hb] at h
      | error s =>
        simp only [recvResult, handleQuery, hi, hb] at h
        right
        injection h with h2
        exact ⟨_, h2.symm⟩
    | GetProcessor =>
      cases hb : env.processor with
      | ok r => simp [recvResult, handleQuery, hi, hb] at h
      | error s =>
        simp only [recvResult, handleQuery, hi, hb] at h
        right
        injection h with h2
        exact ⟨_, h2.symm⟩
    | GetDisksDerives =>
      cases hb : env.diskDrives with
      | ok r => simp [recvResult, handleQuery, hi, hb] at h
      | error s =>
        simp only [recvResult, handleQuery, hi, hb] at h
        right
        injection h with h2
        exact ⟨_, h2.symm⟩
    | GetDiskPartitions =>
      cases hb : env.diskPartitions with
      | ok r => simp [recvResult, handleQuery, hi, hb] at h
      | error s =>
        simp only [recvResult, handleQuery, hi, hb] at h
        right
        injection h with h2
        exact ⟨_, h2.symm⟩
    | GetVideoControllers =>
      cases hb : env.videoControllers with
      | ok r => simp [recvResult, handleQuery, hi, hb] at h
      | error s =>
        simp only [recvResult, handleQuery, hi, hb] at h
        right
        injection h with h2
        exact ⟨_, h2.symm⟩
    | Shutdown =>
      simp only [recvResult, handleQuery, hi] at h
      right
      injection h with h2
      exact ⟨_, h2.symm⟩

/-- In the shared tail of the computation, Shutdown-and-join happens exactly on
the outcomes that completed all categories. -/
theorem finishRun_c3 (env : WmiEnv) (factors : List String)
    (reqs : List WMIQueryRequest) :
    ((finishRun env factors reqs).joined = true
        ∧ (finishRun env factors reqs).requests.getLast? = some .Shutdown)
      ↔ ((∃ v, (finishRun env factors reqs).result = .ok v)
        ∨ (finishRun env factors reqs).result = .error .NoFactorsFound
        ∨ ∃ s, (finishRun env factors reqs).result = .error (.WorkerThreadPanicked s)) := by
  rw [finishRun]
  cases hr : recvResult env .GetVideoControllers with
  | Error e =>
    rcases recvResult_error_shape env _ e hr with ⟨s, rfl⟩ | ⟨s, rfl⟩ <;> simp
  | Baseboard b =>
    dsimp only
    cases env.workerPanic with
    | some msg => simp
    | none =>
      dsimp only
      split <;> simp
  | Processor p =>
    dsimp only
    cases env.workerPanic with
    | some msg => simp
    | none =>
      dsimp only
      split <;> simp
  | DiskDrives d =>
    dsimp only
    cases env.workerPanic with
    | some msg => simp
    | none =>
      dsimp only
      split <;> simp
  | DiskPartitions p =>
    dsimp only
    cases env.workerPanic with
    | some msg => simp
    | none =>
      dsimp only
      split <;> simp
  | VideoControllers v =>
    dsimp only
    cases env.workerPanic with
    | some msg => simp
    | none =>
      dsimp only
      split <;> simp

/-- C3 (counterexample): on the early return taken when the baseboard query
fails, the function returns the typed query error having sent only the
baseboard request — no `Shutdown` is sent and the worker is not joined. -/
theorem C3_counterexample :
    (get_machine_id_with_factors envBaseboardFail).result
        = .error (.QueryError "Baseboard query failed: boom")
      ∧ (get_machine_id_with_factors envBaseboardFail).requests = [.GetBaseboard]
      ∧ WMIQueryRequest.Shutdown ∉ (get_machine_id_with_factors envBaseboardFail).requests
      ∧ (get_machine_id_with_factors envBaseboardFail).joined = false := by
  refine ⟨?_, ?_, ?_, ?_⟩ <;> decide

/-- C3 (amended): `Shutdown` is sent (as the final request) and the worker is
joined exactly on the paths that run the whole query sequence to completion —
success, the empty-factor failure, and worker-panic detection; on every early
error return the function returns without sending `Shutdown` or joining. -/
theorem C3_shutdown_join (env : WmiEnv) :
    ((get_machine_id_with_factors env).joined = true
        ∧ (get_machine_id_with_factors env).requests.getLast? = some .Shutdown)
      ↔ ((∃ v, (get_machine_id_with_factors env).result = .ok v)
        ∨ (get_machine_id_with_factors env).result = .error .NoFactorsFound
        ∨ ∃ s, (get_machine_id_with_factors env).result
            = .error (.WorkerThreadPanicked s)) := by
  rw [get_machine_id_with_factors]
  cases h1 : recvResult env .GetBaseboard
  case Error e =>
    dsimp only
    rcases recvResult_error_shape env _ e h1 with ⟨s, rfl⟩ | ⟨s, rfl⟩ <;> simp
  all_goals (
    dsimp only
    cases h2 : recvResult env .GetProcessor
    case Error e =>
      dsimp only
      rcases recvResult_error_shape env _ e h2 with ⟨s, rfl⟩ | ⟨s, rfl⟩ <;> simp
    all_goals (
      dsimp only
      cases h3 : recvResult env .GetDiskPartitions
      case Error e =>
        dsimp only
        rcases recvResult_error_shape env _ e h3 with ⟨s, rfl⟩ | ⟨s, rfl⟩ <;> simp
      all_goals (
        dsimp only
        cases h4 : partitionsIndex _
        case none =>
          dsimp only
          exact finishRun_c3 env _ _
        case some disk_index =>
          dsimp only
          cases h5 : recvResult env .GetDisksDerives
          case Error e =>
            dsimp only
            rcases recvResult_error_shape env _ e h5 with ⟨s, rfl⟩ | ⟨s, rfl⟩ <;> simp
          all_goals (
            dsimp only
            exact finishRun_c3 env _ _))))

theorem ltChars_iff (x y : List Char) : ltChars x y = true ↔ List.lt x y := by
  induction x generalizing y with
  | nil =>
    cases y with
    | nil =>
      constructor
      · intro h
        simp [ltChars] at h
      · intro h
        cases h
    | cons b bs => exact ⟨fun _ => .nil _ _, fun _ => rfl⟩
  | cons a as ih =>
    cases y with
    | nil =>
      constructor
      · intro h
        simp [ltChars] at h
      · intro h
        cases h
    | cons b bs =>
      rw [ltChars]
      by_cases h1 : a < b
      · rw [if_pos h1]
        exact ⟨fun _ => .head _ _ h1, fun _ => rfl⟩
      · rw [if_neg h1]
        by_cases h2 : b < a
        · rw [if_pos h2]
          constructor
          · intro h
            simp at h
          · intro h
            cases h with
            | head _ _ h3 => exact absurd h3 h1
            | tail h3 h4 h5 => exact absurd h2 h4
        · rw [if_neg h2, ih bs]
          constructor
          · intro h
            exact .tail h1 h2 h
          · intro h
            cases h with
            | head _ _ h3 => exact absurd h3 h1
            | tail _ _ h5 => exact h5

theorem strLt_iff (a b : String) : strLt a b = true ↔ a < b := by
  rw [String.lt_iff_toList_lt]
  rw [show (a.toList < b.toList) = List.Lex (· < ·) a.data b.data from rfl]
  rw [← List.lt_iff_lex_lt]
  exact ltChars_iff a.data b.data

theorem mem_setInsert {x a : String} : ∀ {l : List String},
    x ∈ setInsert a l → x = a ∨ x ∈ l := by
  intro l
  induction l with
  | nil =>
    intro h
    rw [setInsert] at h
    exact Or.inl (List.mem_singleton.mp h)
  | cons b t ih =>
    intro h
    rw [setInsert] at h
    split_ifs at h with h1 h2
    · rcases List.mem_cons.mp h with rfl | hh
      · exact Or.inl rfl
      · exact Or.inr hh
    · exact Or.inr h
    · rcases List.mem_cons.mp h with rfl | hh
      · exact Or.inr (List.mem_cons_self _ _)
      · rcases ih hh with rfl | h3
        · exact Or.inl rfl
        · exact Or.inr (List.mem_cons_of_mem _ h3)

theorem sorted_setInsert (a : String) (l : List String)
    (h : List.Sorted (· < ·) l) : List.Sorted (· < ·) (setInsert a l) := by
  induction l with
  | nil => simp [setInsert]
  | cons b t ih =>
    rw [setInsert]
    rcases lt_trichotomy a b with hab | hab | hab
    · rw [if_pos ((strLt_iff a b).mpr hab), List.sorted_cons]
      refine ⟨?_, h⟩
      intro c hc
      rcases List.mem_cons.mp hc with rfl | hct
      · exact hab
      · exact lt_trans hab ((List.sorted_cons.mp h).1 c hct)
    · rw [if_neg (fun hx => absurd ((strLt_iff a b).mp hx) (by rw [hab]; exact lt_irrefl b)),
        if_pos hab]
      exact h
    · rw [if_neg (fun hx => absurd ((strLt_iff a b).mp hx) (not_lt.mpr (le_of_lt hab))),
        if_neg (fun hx => absurd hab (by rw [hx]; exact lt_irrefl b))]
      rw [List.sorted_cons] at h ⊢
      refine ⟨?_, ih h.2⟩
      intro c hc
      rcases mem_setInsert hc with rfl | hct
      · exact hab
      · exact h.1 c hct

theorem sorted_handleBaseboard (r : WMIQueryResult) (l : List String)
    (h : List.Sorted (· < ·) l) : List.Sorted (· < ·) (handleBaseboard r l) := by
  cases r with
  | Baseboard b =>
    cases b with
    | none => exact h
    | some bios =>
      simp only [handleBaseboard]
      cases sanitize_string bios.manufacturer <;>
        cases sanitize_string bios.product <;>
        cases sanitize_string bios.serial_number <;>
        dsimp only <;>
        (repeat apply sorted_setInsert) <;>
        exact h
  | Processor p => exact h
  | DiskDrives d => exact h
  | DiskPartitions p => exact h
  | VideoControllers v => exact h
  | Error e => exact h

theorem sorted_handleProcessor (r : WMIQueryResult) (l : List String)
    (h : List.Sorted (· < ·) l) : List.Sorted (· < ·) (handleProcessor r l) := by
  cases r with
  | Processor p =>
    cases p with
    | none => exact h
    | some cpu =>
      simp only [handleProcessor]
      cases sanitize_string cpu.name <;>
        cases sanitize_string cpu.processor_id <;>
        dsimp only <;>
        (repeat apply sorted_setInsert) <;>
        exact h
  | Baseboard b => exact h
  | DiskDrives d => exact h
  | DiskPartitions p => exact h
  | VideoControllers v => exact h
  | Error e => exact h

theorem sorted_handleDiskDrives (idx : Nat) (r : WMIQueryResult) (l : List String)
    (h : List.Sorted (· < ·) l) : List.Sorted (· < ·) (handleDiskDrives idx r l) := by
  cases r with
  | DiskDrives disks =>
    simp only [handleDiskDrives]
    cases disks.find? (fun disk => disk.index == idx) with
    | none => exact h
    | some disk =>
      dsimp only
      cases sanitize_string disk.model <;>
        cases sanitize_string disk.serial_number <;>
        dsimp only <;>
        (repeat apply sorted_setInsert) <;>
        exact h
  | Baseboard b => exact h
  | Processor p => exact h
  | DiskPartitions p => exact h
  | VideoControllers v => exact h
  | Error e => exact h

theorem sorted_gpuFold (gpus : List (Nat × VideoController)) (l : List String)
    (h : List.Sorted (· < ·) l) :
    List.Sorted (· < ·)
      (gpus.foldl
        (fun fs p =>
          match gpuEntry p.1 p.2 with
          | some f => setInsert f fs
          | none => fs)
        l) := by
  induction gpus generalizing l with
  | nil => exact h
  | cons g gs ih =>
    rw [List.foldl_cons]
    cases gpuEntry g.1 g.2 with
    | none => exact ih l h
    | some f => exact ih _ (sorted_setInsert _ _ h)

theorem sorted_handleVideoControllers (r : WMIQueryResult) (l : List String)
    (h : List.Sorted (· < ·) l) :
    List.Sorted (· < ·) (handleVideoControllers r l) := by
  cases r with
  | VideoControllers v =>
    simp only [handleVideoControllers]
    exact sorted_gpuFold _ _ h
  | Baseboard b => exact h
  | Processor p => exact h
  | DiskDrives d => exact h
  | DiskPartitions p => exact h
  | Error e => exact h

/-- The final empty-check and digest of the computation, given a sorted factor
set. -/
theorem finishRun_c4 (env : WmiEnv) (factors : List String)
    (reqs : List WMIQueryRequest) (hs : List.Sorted (· < ·) factors) :
    ((finishRun env factors reqs).result = .error .NoFactorsFound
      ↔ (finishRun env factors reqs).joined = true
        ∧ env.workerPanic = none
        ∧ (finishRun env factors reqs).factors = [])
    ∧ (∀ id fs, (finishRun env factors reqs).result = .ok (id, fs) →
        fs = (finishRun env factors reqs).factors
          ∧ fs ≠ []
          ∧ List.Sorted (· < ·) fs
          ∧ id = to_hex (sha256 (utf8Bytes (String.intercalate "|" fs)))) := by
  rw [finishRun]
  cases hr : recvResult env .GetVideoControllers
  case Error e =>
    dsimp only
    rcases recvResult_error_shape env _ e hr with ⟨s, rfl⟩ | ⟨s, rfl⟩ <;> simp
  all_goals (
    dsimp only
    cases hw : env.workerPanic
    case some msg => simp
    case none =>
      dsimp only
      split
      case isTrue hie => simp_all
      case isFalse hie =>
        rw [List.isEmpty_iff] at hie
        constructor
        · simp [hie]
        · intro id fs hok
          injection hok with hfs
          injection hfs with hid hfs2
          subst hfs2
          exact ⟨rfl, hie, sorted_handleVideoControllers _ _ hs, hid.symm⟩)

/-- C4: the computation fails with `NoFactorsFound` exactly when the run
completed all categories (worker joined, no panic) with an empty factor set;
on success the returned factor set is the non-empty, strictly sorted set that
was assembled, and the id is the lowercase hex SHA-256 of the factors joined in
sorted order with the delimiter `|`. -/
theorem C4_digest (env : WmiEnv) :
    ((get_machine_id_with_factors env).result = .error .NoFactorsFound
      ↔ (get_machine_id_with_factors env).joined = true
        ∧ env.workerPanic = none
        ∧ (get_machine_id_with_factors env).factors = [])
    ∧ (∀ id fs, (get_machine_id_with_factors env).result = .ok (id, fs) →
        fs = (get_machine_id_with_factors env).factors
          ∧ fs ≠ []
          ∧ List.Sorted (· < ·) fs
          ∧ id = to_hex (sha256 (utf8Bytes (String.intercalate "|" fs)))) := by
  rw [get_machine_id_with_factors]
  cases h1 : recvResult env .GetBaseboard
  case Error e =>
    dsimp only
    rcases recvResult_error_shape env _ e h1 with ⟨s, rfl⟩ | ⟨s, rfl⟩ <;> simp
  all_goals (
    dsimp only
    cases h2 : recvResult env .GetProcessor
    case Error e =>
      dsimp only
      rcases recvResult_error_shape env _ e h2 with ⟨s, rfl⟩ | ⟨s, rfl⟩ <;> simp
    all_goals (
      dsimp only
      cases h3 : recvResult env .GetDiskPartitions
      case Error e =>
        dsimp only
        rcases recvResult_error_shape env _ e h3 with ⟨s, rfl⟩ | ⟨s, rfl⟩ <;> simp
      all_goals (
        dsimp only
        cases h4 : partitionsIndex _
        case none =>
          dsimp only
          exact finishRun_c4 env _ _
            (sorted_handleProcessor _ _ (sorted_handleBaseboard _ _ (List.sorted_nil)))
        case some disk_index =>
          dsimp only
          cases h5 : recvResult env .GetDisksDerives
          case Error e =>
            dsimp only
            rcases recvResult_error_shape env _ e h5 with ⟨s, rfl⟩ | ⟨s, rfl⟩ <;> simp
          all_goals (
            dsimp only
            exact finishRun_c4 env _ _
              (sorted_handleDiskDrives _ _ _
                (sorted_handleProcessor _ _
                  (sorted_handleBaseboard _ _ (List.sorted_nil))))))))

set_option maxRecDepth 40000 in
/-- Witness for C4 at `envSample`. -/
theorem C4_digest_witness :
    factorsSample ≠ []
      ∧ List.Sorted (· < ·) factorsSample
      ∧ "7fa856957c9e92322c6d3ed23b81a0ad73ded2e9e70e059653924339298130db"
          = to_hex (sha256 (utf8Bytes (String.intercalate "|" factorsSample))) := by
  have h := (C4_digest envSample).2
    "7fa856957c9e92322c6d3ed23b81a0ad73ded2e9e70e059653924339298130db"
    factorsSample (by decide)
  exact ⟨h.2.1, h.2.2.1, h.2.2.2⟩

theorem recvResult_vc_congr (env env' : WmiEnv) (hinit : env'.init = env.init)
    (hvc : env'.videoControllers = env.videoControllers) :
    recvResult env' .GetVideoControllers = recvResult env .GetVideoControllers := by
  rw [recvResult, recvResult, hinit]
  cases env.init with
  | error e => rfl
  | ok u => rw [handleQuery, handleQuery, hvc]

theorem finishRun_congr (env env' : WmiEnv)
    (hinit : env'.init = env.init) (hvc : env'.videoControllers = env.videoControllers)
    (hwp : env'.workerPanic = env.workerPanic) (f : List String)
    (reqs : List WMIQueryRequest) :
    finishRun env' f reqs = finishRun env f reqs := by
  rw [finishRun, finishRun, recvResult_vc_congr env env' hinit hvc, hwp]

theorem handleDiskDrives_filter (idx : Nat) (ds : List DiskDrive) (l : List String) :
    handleDiskDrives idx (.DiskDrives (ds.filter (fun d => d.index == idx))) l
      = handleDiskDrives idx (.DiskDrives ds) l := by
  simp only [handleDiskDrives, List.find?_filter, and_self, Bool.decide_eq_true]

/-- C6: the system disk is the disk whose index is the first boot partition's
disk index, and no other attached disk ever contributes a factor — discarding
every drive with a different index changes nothing about the run. -/
theorem C6_system_disk (env : WmiEnv) (parts : List DiskPartition)
    (p : DiskPartition) (ds : List DiskDrive)
    (hp : env.diskPartitions = .ok parts) (hh : parts.head? = some p)
    (hd : env.diskDrives = .ok ds) :
    get_machine_id_with_factors
        { env with diskDrives := .ok (ds.filter (fun d => d.index == p.disk_index)) }
      = get_machine_id_with_factors env := by
  obtain ⟨i, bb, pr, dd, dp, vc, wp⟩ := env
  dsimp only at hp hd
  subst hp hd
  rcases i with s | u
  · rfl
  rcases bb with e1 | l1
  · rfl
  rcases pr with e2 | l2
  · rfl
  rcases parts with _ | ⟨p0, ps⟩
  · simp at hh
  rw [List.head?_cons] at hh
  injection hh with hh2
  subst hh2
  dsimp only [get_machine_id_with_factors, recvResult, handleQuery, partitionsIndex,
    List.head?_cons, Option.map]
  rw [handleDiskDrives_filter]
  exact finishRun_congr _ _ rfl rfl rfl _ _

/-- Witness for C6 at `envTwoDisks`. -/
theorem C6_system_disk_witness :
    get_machine_id_with_factors
        { envTwoDisks with
            diskDrives := .ok
              ([⟨none, none, 1⟩, ⟨some "S2", some "M2", 2⟩].filter
                (fun d => d.index == (⟨1⟩ : DiskPartition).disk_index)) }
      = get_machine_id_with_factors envTwoDisks :=
  C6_system_disk envTwoDisks [⟨1⟩] ⟨1⟩
    [⟨none, none, 1⟩, ⟨some "S2", some "M2", 2⟩] rfl rfl rfl

/-- C7: a video controller whose device id does not indicate a PCI-bus device
contributes no factor; a PCI-bus controller whose three fields all survive
sanitization contributes exactly one composite factor joining the three tagged
sub-fields, sorted, with the semicolon separator, keyed by the adapter
index. -/
theorem C7_gpu_filter (i : Nat) (vc : VideoController) :
    (isPciDevice vc = false → gpuEntry i vc = none)
    ∧ (∀ m n p, isPciDevice vc = true
        → sanitize_string vc.adapter_compatibility = some m
        → sanitize_string vc.name = some n
        → sanitize_string vc.pnp_device_id = some p
        → gpuEntry i vc = some (String.intercalate ";"
            (sortStrings
              ["gpu" ++ toString i ++ "_manufacturer:" ++ m,
               "gpu" ++ toString i ++ "_model:" ++ n,
               "gpu" ++ toString i ++ "_pnp_id:" ++ p]))) := by
  constructor
  · intro h
    rw [gpuEntry, h]
    rfl
  · intro m n p hpci hm hn hp
    rw [gpuEntry, hpci]
    simp only [hm, hn, hp]
    rfl

/-- Witness for C7: a non-PCI software adapter contributes nothing; a PCI
adapter with all three fields contributes the single sorted composite. -/
theorem C7_gpu_filter_witness :
    (gpuEntry 0 ⟨some "Basic Display", some "Microsoft", some "ROOT\\BasicDisplay"⟩ = none)
    ∧ (gpuEntry 0 ⟨some "RTX", some "NVIDIA", some "PCI\\VEN_10DE"⟩
        = some (String.intercalate ";" (sortStrings
            ["gpu" ++ toString (0 : Nat) ++ "_manufacturer:" ++ "nvidia",
             "gpu" ++ toString (0 : Nat) ++ "_model:" ++ "rtx",
             "gpu" ++ toString (0 : Nat) ++ "_pnp_id:" ++ "pci\\ven_10de"]))) :=
  ⟨(C7_gpu_filter 0 _).1 (by decide),
   (C7_gpu_filter 0 _).2 "nvidia" "rtx" "pci\\ven_10de"
     (by decide) (by decide) (by decide) (by decide)⟩

/-- C5 (counterexample): the WSL probe violates the claimed entry counts under
any fixed method numbering.  When wsl.exe is absent, no method reports enabled
yet the diagnostics hold a single entry — not one entry per method plus a
trailing summary.  Moreover two all-negative runs that differ only in whether
the WMI query succeeds produce six and five entries respectively, so no fixed
per-method entry count exists at all. -/
theorem C5_counterexample :
    ((is_wsl_enabled ⟨false, .ok false, false, .ok []⟩).enabled = false
      ∧ (is_wsl_enabled ⟨false, .ok false, false, .ok []⟩).details.length = 1)
    ∧ ((is_wsl_enabled ⟨true, .ok false, false, .ok []⟩).enabled = false
      ∧ (is_wsl_enabled ⟨true, .ok false, false, .ok []⟩).details.length = 6)
    ∧ ((is_wsl_enabled ⟨true, .ok false, false, .error "x"⟩).enabled = false
      ∧ (is_wsl_enabled ⟨true, .ok false, false, .error "x"⟩).details.length = 5) := by
  refine ⟨⟨?_, ?_⟩, ⟨?_, ?_⟩, ⟨?_, ?_⟩⟩ <;> decide

/-- C5 (amended): the Hyper-V probe behaves as claimed — each of its two
methods records exactly one line, the first affirmative stops the chain (one
line for the service, two when the WMI method answers affirmatively), and a
failed chain has one line per method plus one summary (three).  The WSL probe
instead gates on wsl.exe (one line and a negative outcome when absent, one
gate line otherwise), its service and registry methods record one line each,
its WMI method records two lines on a successful query and one on a failed
one, and a trailing summary is added when no method confirms. -/
theorem C5_probe_chains (he : HypervEnv) (we : WslEnv) :
    ((is_hyperv_enabled he).enabled
        = (decide (he.service = .ok true) || wmiConfirmsHyperv he.wmi))
    ∧ ((is_hyperv_enabled he).details.length
        = if he.service = .ok true then 1
          else if wmiConfirmsHyperv he.wmi then 2
          else 3)
    ∧ ((is_wsl_enabled we).enabled
        = (we.wslExeExists
            && (decide (we.service = .ok true) || we.reg || wmiConfirmsWsl we.wmi)))
    ∧ ((is_wsl_enabled we).details.length
        = if !we.wslExeExists then 1
          else if we.service = .ok true then 2
          else if we.reg then 3
          else match we.wmi with
            | .ok feats =>
              if (check_wsl_via_wmi feats).1 && (check_wsl_via_wmi feats).2 then 5 else 6
            | .error _ => 5) := by
  refine ⟨?_, ?_, ?_, ?_⟩
  · rcases he with ⟨svc, wmi⟩
    rcases svc with e1 | b1
    · rcases wmi with e2 | feats
      · simp [is_hyperv_enabled, hypervWmiStep, wmiConfirmsHyperv]
      · cases hc : check_hyperv_via_wmi feats <;>
          simp [is_hyperv_enabled, hypervWmiStep, wmiConfirmsHyperv, hc]
    · cases b1
      · rcases wmi with e2 | feats
        · simp [is_hyperv_enabled, hypervWmiStep, wmiConfirmsHyperv]
        · cases hc : check_hyperv_via_wmi feats <;>
            simp [is_hyperv_enabled, hypervWmiStep, wmiConfirmsHyperv, hc]
      · simp [is_hyperv_enabled]
  · rcases he with ⟨svc, wmi⟩
    rcases svc with e1 | b1
    · rcases wmi with e2 | feats
      · simp [is_hyperv_enabled, hypervWmiStep, wmiConfirmsHyperv]
      · cases hc : check_hyperv_via_wmi feats <;>
          simp [is_hyperv_enabled, hypervWmiStep, wmiConfirmsHyperv, hc]
    · cases b1
      · rcases wmi with e2 | feats
        · simp [is_hyperv_enabled, hypervWmiStep, wmiConfirmsHyperv]
        · cases hc : check_hyperv_via_wmi feats <;>
            simp [is_hyperv_enabled, hypervWmiStep, wmiConfirmsHyperv, hc]
      · simp [is_hyperv_enabled]
  · rcases we with ⟨gate, svc, reg, wmi⟩
    cases gate
    · simp [is_wsl_enabled]
    · rcases svc with e1 | b1 <;>
        [skip; cases b1] <;>
        [cases reg; cases reg; skip] <;>
        (rcases wmi with e2 | feats
         · simp [is_wsl_enabled, wslRegStep, wslWmiStep, wmiConfirmsWsl]
         · cases h1 : (check_wsl_via_wmi feats).1 <;>
             cases h2 : (check_wsl_via_wmi feats).2 <;>
             simp [is_wsl_enabled, wslRegStep, wslWmiStep, wmiConfirmsWsl, h1, h2])
  · rcases we with ⟨gate, svc, reg, wmi⟩
    cases gate
    · simp [is_wsl_enabled]
    · rcases svc with e1 | b1 <;>
        [skip; cases b1] <;>
        [cases reg; cases reg; skip] <;>
        (rcases wmi with e2 | feats
         · simp [is_wsl_enabled, wslRegStep, wslWmiStep, wmiConfirmsWsl]
         · cases h1 : (check_wsl_via_wmi feats).1 <;>
             cases h2 : (check_wsl_via_wmi feats).2 <;>
             simp [is_wsl_enabled, wslRegStep, wslWmiStep, wmiConfirmsWsl, h1, h2])

theorem check_fold_fst (feats : List OptionalFeature) (acc : Bool × Bool) :
    (feats.foldl wslFeatureStep acc).1
      = (acc.1 || feats.any (fun f =>
          f.install_state == 1 && f.name == "Microsoft-Windows-Subsystem-Linux")) := by
  induction feats generalizing acc with
  | nil => simp
  | cons f fs ih =>
    rw [List.foldl_cons, List.any_cons, ih, wslFeatureStep]
    by_cases h1 : (f.install_state == 1) = true
    · rw [if_pos h1]
      by_cases h2 : (f.name == "Microsoft-Windows-Subsystem-Linux") = true
      · rw [if_pos h2]
        simp [h1, h2]
      · rw [if_neg h2]
        by_cases h3 : (f.name == "VirtualMachinePlatform") = true
        · rw [if_pos h3]
          simp [h1, h2]
        · rw [if_neg h3]
          simp [h2]
    · rw [if_neg h1]
      simp [h1]

theorem check_fold_snd (feats : List OptionalFeature) (acc : Bool × Bool) :
    (feats.foldl wslFeatureStep acc).2
      = (acc.2 || feats.any (fun f =>
          f.install_state == 1 && f.name == "VirtualMachinePlatform")) := by
  induction feats generalizing acc with
  | nil => simp
  | cons f fs ih =>
    rw [List.foldl_cons, List.any_cons, ih, wslFeatureStep]
    by_cases h1 : (f.install_state == 1) = true
    · rw [if_pos h1]
      by_cases h2 : (f.name == "Microsoft-Windows-Subsystem-Linux") = true
      · rw [if_pos h2]
        by_cases h3 : (f.name == "VirtualMachinePlatform") = true
        · rw [beq_iff_eq] at h2 h3
          rw [h2] at h3
          exact absurd h3 (by decide)
        · simp [h3]
      · rw [if_neg h2]
        by_cases h3 : (f.name == "VirtualMachinePlatform") = true
        · rw [if_pos h3]
          simp [h1, h3]
        · rw [if_neg h3]
          simp [h3]
    · rw [if_neg h1]
      simp [h1]

theorem check_wsl_via_wmi_spec (feats : List OptionalFeature) :
    ((check_wsl_via_wmi feats).1 = true
      ↔ ∃ f ∈ feats, f.install_state = 1
          ∧ f.name = "Microsoft-Windows-Subsystem-Linux")
    ∧ ((check_wsl_via_wmi feats).2 = true
      ↔ ∃ f ∈ feats, f.install_state = 1 ∧ f.name = "VirtualMachinePlatform") := by
  constructor
  · rw [check_wsl_via_wmi, check_fold_fst]
    simp [List.any_eq_true]
  · rw [check_wsl_via_wmi, check_fold_snd]
    simp [List.any_eq_true]

/-- C9: with the earlier methods negative, the WSL probe's WMI method confirms
enablement exactly when both the Linux-subsystem feature and the
VirtualMachinePlatform feature have install state 1 in the returned rows. -/
theorem C9_wsl_wmi_both_required (we : WslEnv) (feats : List OptionalFeature)
    (hfile : we.wslExeExists = true)
    (hsvc : we.service ≠ .ok true)
    (hreg : we.reg = false)
    (hwmi : we.wmi = .ok feats) :
    ((is_wsl_enabled we).enabled = true
      ↔ ((∃ f ∈ feats, f.install_state = 1
            ∧ f.name = "Microsoft-Windows-Subsystem-Linux")
        ∧ (∃ f ∈ feats, f.install_state = 1
            ∧ f.name = "VirtualMachinePlatform"))) := by
  obtain ⟨gate, svc, reg, wmi⟩ := we
  dsimp only at hfile hsvc hreg hwmi
  subst hfile hreg hwmi
  have hs := check_wsl_via_wmi_spec feats
  have hval : (is_wsl_enabled ⟨true, svc, false, .ok feats⟩).enabled
      = ((check_wsl_via_wmi feats).1 && (check_wsl_via_wmi feats).2) := by
    rcases svc with e1 | b1
    · cases h1 : (check_wsl_via_wmi feats).1 <;>
        cases h2 : (check_wsl_via_wmi feats).2 <;>
        simp [is_wsl_enabled, wslRegStep, wslWmiStep, h1, h2]
    · cases b1
      · cases h1 : (check_wsl_via_wmi feats).1 <;>
          cases h2 : (check_wsl_via_wmi feats).2 <;>
          simp [is_wsl_enabled, wslRegStep, wslWmiStep, h1, h2]
      · exact absurd rfl hsvc
  rw [hval, Bool.and_eq_true]
  exact and_congr hs.1 hs.2

/-- Witness for C9: both features enabled make the WMI method confirm. -/
theorem C9_wsl_wmi_both_required_witness :
    (is_wsl_enabled ⟨true, .ok false, false, .ok featsBoth⟩).enabled = true := by
  have h := C9_wsl_wmi_both_required ⟨true, .ok false, false, .ok featsBoth⟩ featsBoth
    rfl (by decide) rfl rfl
  exact h.mpr (by decide)

/-- C2 (counterexample): an individual backend query failure aborts the whole
fingerprint computation with a typed `QueryError` — an error that is neither a
channel desync, a worker crash, nor an empty factor set. -/
theorem C2_counterexample :
    (get_machine_id_with_factors envProcessorFail).result
        = .error (.QueryError "Processor query failed: cpu boom")
      ∧ (get_machine_id_with_factors envProcessorFail).requests
        = [.GetBaseboard, .GetProcessor] := by
  constructor
  · decide
  · decide

theorem finishRun_error_shape (env : WmiEnv) (factors : List String)
    (reqs : List WMIQueryRequest) (e : MachineIdError) :
    (finishRun env factors reqs).result = .error e
      → (∃ s, e = .WMIInitialization s) ∨ (∃ s, e = .QueryError s)
        ∨ (∃ s, e = .WorkerThreadPanicked s) ∨ e = .NoFactorsFound := by
  rw [finishRun]
  cases hr : recvResult env .GetVideoControllers
  case Error e2 =>
    dsimp only
    intro h
    injection h with h2
    subst h2
    rcases recvResult_error_shape env _ e2 hr with h3 | h3
    · exact Or.inl h3
    · exact Or.inr (Or.inl h3)
  all_goals (
    dsimp only
    cases env.workerPanic
    case some msg =>
      intro h
      injection h with h2
      exact Or.inr (Or.inr (Or.inl ⟨msg, h2.symm⟩))
    case none =>
      dsimp only
      split
      · intro h
        injection h with h2
        exact Or.inr (Or.inr (Or.inr h2.symm))
      · intro h
        simp at h)

/-- C2 (amended): a feature probe is never aborted by an individual method
failure — the failing service method's error is recorded as a diagnostic line
and the outcome is decided by the remaining methods, and a failing WMI method
in the WSL chain is likewise recorded while the probe still returns an
outcome; the fingerprint computation, in contrast, aborts with a typed error
on worker-initialization failure and on any individual query failure, besides
the worker-crash and empty-factor-set failures. -/
theorem C2_propagation :
    (∀ (he : HypervEnv) (s : String), he.service = .error s →
        ("服务 vmms 查询失败: " ++ s ++ "。") ∈ (is_hyperv_enabled he).details
          ∧ (is_hyperv_enabled he).enabled = wmiConfirmsHyperv he.wmi)
    ∧ (∀ (we : WslEnv) (s : String), we.wslExeExists = true → we.service ≠ .ok true
        → we.reg = false → we.wmi = .error s →
        ("WMI 查询可选功能失败: " ++ s ++ "。") ∈ (is_wsl_enabled we).details
          ∧ (is_wsl_enabled we).enabled = false)
    ∧ (∀ (env : WmiEnv) (e : MachineIdError),
        (get_machine_id_with_factors env).result = .error e →
        (∃ s, e = .WMIInitialization s) ∨ (∃ s, e = .QueryError s)
          ∨ (∃ s, e = .WorkerThreadPanicked s) ∨ e = .NoFactorsFound) := by
  refine ⟨?_, ?_, ?_⟩
  · intro he s h
    obtain ⟨svc, wmi⟩ := he
    dsimp only at h
    subst h
    rcases wmi with e2 | feats
    · simp [is_hyperv_enabled, hypervWmiStep, wmiConfirmsHyperv]
    · cases hc : check_hyperv_via_wmi feats <;>
        simp [is_hyperv_enabled, hypervWmiStep, wmiConfirmsHyperv, hc]
  · intro we s hfile hsvc hreg hwmi
    obtain ⟨gate, svc, reg, wmi⟩ := we
    dsimp only at hfile hsvc hreg hwmi
    subst hfile hreg hwmi
    rcases svc with e1 | b1
    · simp [is_wsl_enabled, wslRegStep, wslWmiStep]
    · cases b1
      · simp [is_wsl_enabled, wslRegStep, wslWmiStep]
      · exact absurd rfl hsvc
  · intro env e
    rw [get_machine_id_with_factors]
    cases h1 : recvResult env .GetBaseboard
    case Error e2 =>
      dsimp only
      intro h
      injection h with h2
      subst h2
      rcases recvResult_error_shape env _ e2 h1 with h3 | h3
      · exact Or.inl h3
      · exact Or.inr (Or.inl h3)
    all_goals (
      dsimp only
      cases h2 : recvResult env .GetProcessor
      case Error e2 =>
        dsimp only
        intro h
        injection h with hh
        subst hh
        rcases recvResult_error_shape env _ e2 h2 with h3 | h3
        · exact Or.inl h3
        · exact Or.inr (Or.inl h3)
      all_goals (
        dsimp only
        cases h3 : recvResult env .GetDiskPartitions
        case Error e2 =>
          dsimp only
          intro h
          injection h with hh
          subst hh
          rcases recvResult_error_shape env _ e2 h3 with h4 | h4
          · exact Or.inl h4
          · exact Or.inr (Or.inl h4)
        all_goals (
          dsimp only
          cases h4 : partitionsIndex _
          case none =>
            dsimp only
            exact finishRun_error_shape env _ _ e
          case some disk_index =>
            dsimp only
            cases h5 : recvResult env .GetDisksDerives
            case Error e2 =>
              dsimp only
              intro h
              injection h with hh
              subst hh
              rcases recvResult_error_shape env _ e2 h5 with h6 | h6
              · exact Or.inl h6
              · exact Or.inr (Or.inl h6)
            all_goals (
              dsimp only
              exact finishRun_error_shape env _ _ e))))

/-- Witness for C2 at concrete probe and fingerprint environments. -/
theorem C2_propagation_witness :
    (("服务 vmms 查询失败: " ++ "svc boom" ++ "。")
        ∈ (is_hyperv_enabled ⟨.error "svc boom", .ok []⟩).details
      ∧ (is_hyperv_enabled ⟨.error "svc boom", .ok []⟩).enabled
        = wmiConfirmsHyperv (.ok []))
    ∧ (("WMI 查询可选功能失败: " ++ "wmi boom" ++ "。")
        ∈ (is_wsl_enabled ⟨true, .ok false, false, .error "wmi boom"⟩).details
      ∧ (is_wsl_enabled ⟨true, .ok false, false, .error "wmi boom"⟩).enabled = false)
    ∧ ((∃ s, MachineIdError.QueryError "Processor query failed: cpu boom"
          = .WMIInitialization s)
        ∨ (∃ s, MachineIdError.QueryError "Processor query failed: cpu boom"
          = .QueryError s)
        ∨ (∃ s, MachineIdError.QueryError "Processor query failed: cpu boom"
          = .WorkerThreadPanicked s)
        ∨ MachineIdError.QueryError "Processor query failed: cpu boom"
          = .NoFactorsFound) :=
  ⟨C2_propagation.1 ⟨.error "svc boom", .ok []⟩ "svc boom" rfl,
   C2_propagation.2.1 ⟨true, .ok false, false, .error "wmi boom"⟩ "wmi boom"
     rfl (by decide) rfl rfl,
   C2_propagation.2.2 envProcessorFail
     (.QueryError "Processor query failed: cpu boom") (by decide)⟩

end VirtDetect
